import Mathlib

/-!
Verification of the concurrent domain-probing engine of the
cleaner-adblock repository, shallowly embedded in Lean 4.

The embedding follows `lib/parsers/domainExtractor.js` (which bundles
`domainExtractor.js`, `wwwHandler.js` and `domainChecker.js`),
`lib/utils/pagePool.js`, `lib/utils/logger.js` and the configuration
constants of `lib/config/defaults.js`.

JavaScript strings are modelled as Lean `String`, with the handful of
string primitives the source uses (`startsWith`, `includes`,
`replace(/^www\./,'')`, `split('.')`, `substring`) re-implemented on the
underlying character lists so that every definition evaluates inside the
kernel.  Navigation (puppeteer `page.goto`) is the only effectful
operation the engine performs per URL; it is modelled by an oracle
`net : String -> NavOutcome` giving, for each URL, either a response
(optional observed status code plus the final page URL) or a thrown
error message.  `new URL(u).hostname` is modelled for URLs of the shape
`scheme://host[:port][/path...]` with an already lower-cased host, which
covers every URL the engine constructs or receives from the driver.
-/

/-- JavaScript `s.startsWith(p)`. -/
def startsWithS (s p : String) : Bool :=
  p.data.isPrefixOf s.data

/-- JavaScript `s.includes(p)`: `p` occurs as a contiguous substring of `s`. -/
def containsSub (pat : List Char) : List Char → Bool
  | [] => pat.isPrefixOf []
  | c :: cs => pat.isPrefixOf (c :: cs) || containsSub pat cs

/-- JavaScript `s.includes(p)` on strings. -/
def includesS (s p : String) : Bool :=
  containsSub p.data s.data

/-- JavaScript `domain.replace(/^www\./, '')`: strip one leading `www.`. -/
def stripWww (s : String) : String :=
  if "www.".data.isPrefixOf s.data then ⟨s.data.drop 4⟩ else s

/-- JavaScript `str.split(sep)` for a one-character separator, on char lists. -/
def splitChar (sep : Char) : List Char → List (List Char)
  | [] => [[]]
  | c :: cs =>
    if c = sep then [] :: splitChar sep cs
    else
      match splitChar sep cs with
      | [] => [[c]]
      | h :: t => (c :: h) :: t

/-- JavaScript `parts.join('.')`. -/
def joinDot : List (List Char) → List Char
  | [] => []
  | [l] => l
  | l :: ls => l ++ '.' :: joinDot ls

/-- Configuration constant `MAX_VARIANT_ATTEMPTS` from `lib/config/defaults.js`. -/
def MAX_VARIANT_ATTEMPTS : Nat := 1

/-- Configuration constant `MAX_RETRIES_PER_ERROR_TYPE` from `lib/config/defaults.js`. -/
def MAX_RETRIES_PER_ERROR_TYPE : Nat := 1

/-- Configuration constant `BARE_DOMAIN_DOT_COUNT` from `lib/config/defaults.js`. -/
def BARE_DOMAIN_DOT_COUNT : Nat := 1

/-- Configuration constant `ERROR_MESSAGE_MAX_LENGTH` from `lib/config/constants`. -/
def ERROR_MESSAGE_MAX_LENGTH : Nat := 120

/-- `getBaseDomain` from `domainExtractor.js`: strip a leading `www.`, then
for hosts of more than two dot-separated labels keep the last two. -/
def getBaseDomain (domain : String) : String :=
  let d := stripWww domain
  let parts := splitChar '.' d.data
  if parts.length ≤ 2 then d
  else ⟨joinDot (parts.drop (parts.length - 2))⟩

/-- `isBareDomain` from `domainExtractor.js`. -/
def isBareDomain (domain : String) : Bool :=
  (stripWww domain).data.count '.' = BARE_DOMAIN_DOT_COUNT

/-- `hasSubdomain` from `domainChecker.js`: more than one dot after
stripping a leading `www.`. -/
def hasSubdomain (domain : String) : Bool :=
  (stripWww domain).data.count '.' > 1

/-- `stripSubdomain` from `domainChecker.js`: same computation as
`getBaseDomain`, duplicated in the source. -/
def stripSubdomain (domain : String) : String :=
  let d := stripWww domain
  let parts := splitChar '.' d.data
  if parts.length ≤ 2 then d
  else ⟨joinDot (parts.drop (parts.length - 2))⟩

/-- `isSimilarDomainRedirect` from `domainChecker.js`. -/
def isSimilarDomainRedirect (originalDomain finalDomain : String)
    (ignoreSimilar : Bool) : Bool :=
  if !ignoreSimilar then false
  else getBaseDomain originalDomain = getBaseDomain finalDomain

/-- The `filterHttps` helper closed over `httpsOnly` inside
`getSmartVariants`: with `httpsOnly` set, keep only `https://` URLs. -/
def filterHttps (httpsOnly : Bool) (urls : List String) : List String :=
  if httpsOnly then urls.filter (fun u => startsWithS u "https://") else urls

/-- `getSmartVariants` from `domainChecker.js`: the pure variant-strategy
function mapping the last attempt's error/status and URL to the ordered
list of next candidate URLs. -/
def getSmartVariants (domain : String) (errorCode : Option String)
    (statusCode : Option Int) (lastUrl : String) (httpsOnly : Bool) :
    List String :=
  let wwwDomain := if startsWithS domain "www." then domain else "www." ++ domain
  let baseDomain := stripSubdomain domain
  let lastWasHttps := startsWithS lastUrl "https://"
  let lastWasWww := includesS lastUrl "://www."
  if errorCode = some "ERR_NAME_NOT_RESOLVED" then
    if !lastWasWww then
      filterHttps httpsOnly ["https://" ++ wwwDomain, "http://" ++ wwwDomain]
    else []
  else if errorCode = some "ERR_CONNECTION_REFUSED" then
    if lastWasHttps then
      filterHttps httpsOnly
        ["http://" ++ domain, "http://" ++ wwwDomain, "https://" ++ wwwDomain]
    else if !lastWasWww then
      filterHttps httpsOnly ["http://" ++ wwwDomain, "https://" ++ wwwDomain]
    else []
  else if errorCode = some "ERR_CONNECTION_TIMED_OUT" then
    if !lastWasWww then
      filterHttps httpsOnly
        ["https://" ++ wwwDomain, "http://" ++ domain, "http://" ++ wwwDomain]
    else
      filterHttps httpsOnly ["http://" ++ domain, "http://" ++ wwwDomain]
  else if errorCode = some "ERR_BLOCKED_BY_CLIENT" then
    []
  else if statusCode = some 520 then
    if lastWasHttps then
      filterHttps httpsOnly
        ["http://" ++ domain, "https://" ++ wwwDomain, "http://" ++ wwwDomain]
    else if !lastWasWww then
      filterHttps httpsOnly ["https://" ++ wwwDomain, "http://" ++ wwwDomain]
    else []
  else if statusCode = some 403 ∧ hasSubdomain domain then
    if lastWasHttps then
      filterHttps httpsOnly
        ["http://" ++ domain, "https://" ++ baseDomain,
         "https://www." ++ baseDomain, "http://" ++ baseDomain,
         "http://www." ++ baseDomain]
    else
      filterHttps httpsOnly
        ["https://" ++ baseDomain, "https://www." ++ baseDomain,
         "http://" ++ baseDomain, "http://www." ++ baseDomain]
  else if !lastWasWww then
    filterHttps httpsOnly
      ["https://" ++ wwwDomain, "http://" ++ domain, "http://" ++ wwwDomain]
  else
    filterHttps httpsOnly ["http://" ++ domain, "http://" ++ wwwDomain]

example : getSmartVariants "example.com" (some "ERR_BLOCKED_BY_CLIENT") none
    "https://example.com" false = [] := by decide

example : getSmartVariants "example.com" (some "ERR_NAME_NOT_RESOLVED") none
    "https://example.com" false =
    ["https://www.example.com", "http://www.example.com"] := by decide

example : getBaseDomain "shop.example.com" = "example.com" := by decide

/-- Outcome of one navigation (`page.goto`) as observed by `tryUrl`:
either a response — `statusCode` is the final value of the `statusCode`
variable (the status captured by the matching `response` listener,
overwritten by `response.status()` when `goto` returned a response) and
`finalUrl` is `page.url()` — or a thrown error with its message. -/
inductive NavOutcome where
  | ok (statusCode : Option Int) (finalUrl : String)
  | err (message : String)

/-- The record returned by `tryUrl` in `domainChecker.js`. -/
structure TryResult where
  success : Bool
  statusCode : Option Int
  finalUrl : Option String
  errorCode : Option String
  reason : Option String
  isDeadFlag : Option Bool
deriving DecidableEq

/-- `truncateError` from `lib/utils/logger.js`. -/
def truncateError (message : String) : String :=
  if message.data.length ≤ ERROR_MESSAGE_MAX_LENGTH then message
  else ⟨message.data.take ERROR_MESSAGE_MAX_LENGTH⟩ ++ "..."

/-- The ordered substring-matching error classifier in the catch branch
of `tryUrl`. -/
def classifyError (m : String) : Option String :=
  if includesS m "ERR_NAME_NOT_RESOLVED" then some "ERR_NAME_NOT_RESOLVED"
  else if includesS m "ERR_CONNECTION_REFUSED" then some "ERR_CONNECTION_REFUSED"
  else if includesS m "ERR_CONNECTION_TIMED_OUT" || includesS m "timeout" then
    some "ERR_CONNECTION_TIMED_OUT"
  else if includesS m "ERR_BLOCKED_BY_CLIENT" then some "ERR_BLOCKED_BY_CLIENT"
  else if includesS m "ERR_CONNECTION_RESET" then some "ERR_CONNECTION_RESET"
  else if includesS m "ERR_SSL_PROTOCOL_ERROR" then some "ERR_SSL_PROTOCOL_ERROR"
  else if includesS m "ERR_ADDRESS_UNREACHABLE" then some "ERR_ADDRESS_UNREACHABLE"
  else if includesS m "ERR_CERT" || includesS m "certificate" then some "ERR_CERT"
  else none

/-- JavaScript template piece `statusCode || 'unreachable'` inside the
`HTTP ...` reason string of `tryUrl` (0 and null are falsy). -/
def statusText : Option Int → String
  | some v => if v = 0 then "unreachable" else toString v
  | none => "unreachable"

/-- `tryUrl` from `domainChecker.js`, as a pure function of the
navigation outcome delivered by the page driver.  Rate limiting, the
page pool and the force-close timer do not affect the returned record. -/
def tryUrl (nav : NavOutcome) : TryResult :=
  match nav with
  | .ok st f =>
    let isDead : Bool := match st with
      | some v => decide (v ≥ 400)
      | none => true
    { success := !isDead
      statusCode := st
      finalUrl := some f
      errorCode := none
      reason := if isDead then some ("HTTP " ++ statusText st) else none
      isDeadFlag := none }
  | .err m =>
    let errorCode := classifyError m
    { success := false
      statusCode := none
      finalUrl := none
      errorCode := errorCode
      reason := some (truncateError m)
      isDeadFlag := some (errorCode ≠ some "ERR_CERT" ∧
        errorCode ≠ some "ERR_BLOCKED_BY_CLIENT" ∧ errorCode ≠ none) }

/-- `new URL(u).hostname` for URLs of the shape `scheme://host...`:
`none` models the constructor throwing.  The helper returns the suffix
after the first occurrence of the pattern. -/
def afterSub (pat : List Char) : List Char → Option (List Char)
  | [] => if pat.isPrefixOf ([] : List Char) then some [] else none
  | c :: cs =>
    if pat.isPrefixOf (c :: cs) then some ((c :: cs).drop pat.length)
    else afterSub pat cs

/-- Hostname of a URL string: the segment after the first `://` up to
the first `/`, `:`, `?` or `#`.  Parsing fails (`none`) when there is no
`://` or the scheme part is empty, modelling `new URL` throwing. -/
def hostnameOf (u : String) : Option String :=
  if "://".data.isPrefixOf u.data then none
  else
    match afterSub "://".data u.data with
    | none => none
    | some rest =>
      some ⟨rest.takeWhile (fun c => !(c = '/' || c = ':' || c = '?' || c = '#'))⟩

/-- The `extractDomain` helper inside `checkDomain`: the URL's hostname
with a leading `www.` stripped, or the raw string when parsing fails. -/
def extractDomain (u : String) : String :=
  match hostnameOf u with
  | some h => stripWww h
  | none => u

example : extractDomain "https://www.example.com/path" = "example.com" := by decide
example : extractDomain "not a url" = "not a url" := by decide

/-- One entry of the per-domain attempt log built by `checkDomain`. -/
structure Attempt where
  url : String
  tried : Bool
  success : Bool
  statusCode : Option Int
  reason : Option String
  errorCode : Option String
  redirect : Option String
  similarRedirect : Option String
deriving DecidableEq

/-- The `successResult` record of `checkDomain`. -/
structure SuccessInfo where
  url : String
  finalUrl : Option String
  statusCode : Option Int
  isRedirecting : Bool
  isSimilarRedirect : Bool
  originalDomain : Option String
  finalDomain : Option String
deriving DecidableEq

/-- A domain object produced by `expandDomainsWithWww` in
`wwwHandler.js`; `checkDomain` reads only `original`. -/
structure DomainObj where
  original : String
  variants : List String
deriving DecidableEq

/-- The `while` loop of `checkDomain`, with fuel
`MAX_VARIANT_ATTEMPTS - attemptCount` (the source increments
`attemptCount` exactly when it moves on to the next variant).  Returns
the attempt log and the optional `successResult`. -/
def checkDomainLoop (net : String → NavOutcome) (domain : String)
    (ignoreSimilar httpsOnly : Bool) :
    Nat → String → List Attempt → (String → Nat) →
    List Attempt × Option SuccessInfo
  | 0, _, attempts, _ => (attempts, none)
  | Nat.succ n, url, attempts, errorCounts =>
    let r := tryUrl (net url)
    if r.success then
      let originalDomain := extractDomain url
      let finalDomain := extractDomain (r.finalUrl.getD "")
      let isRedirecting := originalDomain ≠ finalDomain
      if isRedirecting then
        let isSimilar := isSimilarDomainRedirect originalDomain finalDomain ignoreSimilar
        let a : Attempt :=
          { url := url, tried := true, success := r.success
            statusCode := r.statusCode, reason := r.reason
            errorCode := r.errorCode
            redirect := if isSimilar then none else some finalDomain
            similarRedirect := if isSimilar then some finalDomain else none }
        (attempts ++ [a],
         some { url := url, finalUrl := r.finalUrl, statusCode := r.statusCode
                isRedirecting := true, isSimilarRedirect := isSimilar
                originalDomain := some originalDomain
                finalDomain := some finalDomain })
      else
        let a : Attempt :=
          { url := url, tried := true, success := r.success
            statusCode := r.statusCode, reason := r.reason
            errorCode := r.errorCode, redirect := none, similarRedirect := none }
        (attempts ++ [a],
         some { url := url, finalUrl := r.finalUrl, statusCode := r.statusCode
                isRedirecting := false, isSimilarRedirect := false
                originalDomain := none, finalDomain := none })
    else
      let a : Attempt :=
        { url := url, tried := true, success := r.success
          statusCode := r.statusCode, reason := r.reason
          errorCode := r.errorCode, redirect := none, similarRedirect := none }
      let attempts' := attempts ++ [a]
      let errorCounts' : String → Nat := match r.errorCode with
        | some code => fun c => if c = code then errorCounts c + 1 else errorCounts c
        | none => errorCounts
      let hitRetryLimit : Bool := match r.errorCode with
        | some code => decide (errorCounts' code > MAX_RETRIES_PER_ERROR_TYPE)
        | none => false
      if hitRetryLimit then (attempts', none)
      else
        match getSmartVariants domain r.errorCode r.statusCode url httpsOnly with
        | [] => (attempts', none)
        | v :: _ =>
          checkDomainLoop net domain ignoreSimilar httpsOnly n v attempts' errorCounts'

/-- The scan part of `checkDomain`: run the variant loop starting from
`https://<domain>` with the configured attempt budget. -/
def checkDomainScan (net : String → NavOutcome) (domainObj : DomainObj)
    (ignoreSimilar httpsOnly : Bool) : List Attempt × Option SuccessInfo :=
  checkDomainLoop net domainObj.original ignoreSimilar httpsOnly
    MAX_VARIANT_ATTEMPTS ("https://" ++ domainObj.original) [] (fun _ => 0)

/-- Terminal classification of one domain scan, mirroring the `result`
object of `checkDomain` (`type: null` for active is the `active`
constructor). -/
inductive ScanResult where
  | active
  | redirect (domain finalDomain originalUrl : String)
      (finalUrl : Option String) (statusCode : Option Int)
  | inconclusive (domain : String) (statusCode : Option Int) (reason : String)
  | dead (domain : String) (statusCode : Option Int) (reason : String)
deriving DecidableEq

/-- JavaScript `x || null` on an optional number: 0 and null are falsy. -/
def jsOrInt : Option Int → Option Int
  | some v => if v = 0 then none else some v
  | none => none

/-- JavaScript `x || d` on an optional string: the empty string and
undefined are falsy. -/
def jsOrString : Option String → String → String
  | some s, d => if s = "" then d else s
  | none, d => d

/-- `checkDomain` from `domainChecker.js`: run the scan, then classify
into redirect / inconclusive / dead / active exactly as the source's
final `result` computation does. -/
def checkDomain (net : String → NavOutcome) (domainObj : DomainObj)
    (ignoreSimilar httpsOnly : Bool) : ScanResult :=
  let domain := domainObj.original
  let scanned := checkDomainScan net domainObj ignoreSimilar httpsOnly
  let attempts := scanned.1
  match scanned.2 with
  | some s =>
    if s.isRedirecting ∧ ¬s.isSimilarRedirect then
      .redirect domain (s.finalDomain.getD "") s.url s.finalUrl s.statusCode
    else .active
  | none =>
    let lastAttempt := (attempts.find? (fun a => a.tried)).orElse
      (fun _ => attempts.head?)
    let wasBlocked := attempts.any
      (fun a => a.errorCode = some "ERR_BLOCKED_BY_CLIENT")
    let sc := jsOrInt (lastAttempt.bind Attempt.statusCode)
    if wasBlocked then
      .inconclusive domain sc "Blocked by browser/extension/ISP"
    else
      .dead domain sc
        (jsOrString (lastAttempt.bind Attempt.reason) "All variants failed")

example :
    checkDomain (fun _ => .err "net::ERR_NAME_NOT_RESOLVED at https://example.com")
      ⟨"example.com", ["example.com", "www.example.com"]⟩ false false =
    .dead "example.com" none "net::ERR_NAME_NOT_RESOLVED at https://example.com" := by
  decide

example :
    checkDomain (fun _ => .ok (some 200) "https://example.com/")
      ⟨"example.com", ["example.com"]⟩ false false = .active := by decide

example :
    (checkDomainScan
      (fun _ => .err "net::ERR_NAME_NOT_RESOLVED at https://example.com")
      ⟨"example.com", ["example.com"]⟩ false false).1.length = 1 := by decide

/-- State of the `PagePool` of `lib/utils/pagePool.js`.  Pages are
identified by the order in which `browser.newPage()` created them:
`nextId` is the id the next `newPage()` call returns.  `available` and
`inUse` are the pool's two collections (`inUse` is a JS `Set`, kept
duplicate-free by the operations below); `closedPages` records every
page on which `page.close()` was called. -/
structure PoolState where
  nextId : Nat
  available : List Nat
  inUse : List Nat
  closedPages : List Nat
deriving DecidableEq

/-- `PagePool.acquire`, with the outcome of the `about:blank` reset
given by `resetFails`.  Returns the page handed to the caller and the
new pool state.  JS `available.pop()` removes the last element. -/
def poolAcquire (resetFails : Bool) (s : PoolState) : Nat × PoolState :=
  match s.available.getLast? with
  | none =>
    (s.nextId, { s with nextId := s.nextId + 1 })
  | some page =>
    let avail' := s.available.dropLast
    let inUse' := if page ∈ s.inUse then s.inUse else s.inUse ++ [page]
    if resetFails then
      (s.nextId,
       { nextId := s.nextId + 1, available := avail'
         inUse := inUse'.erase page, closedPages := s.closedPages })
    else
      (page, { s with available := avail', inUse := inUse' })

/-- `PagePool.release`: a page in the in-use set goes back to
`available`; any other page is closed. -/
def poolRelease (page : Nat) (s : PoolState) : PoolState :=
  if page ∈ s.inUse then
    { s with inUse := s.inUse.erase page, available := s.available ++ [page] }
  else
    { s with closedPages := s.closedPages ++ [page] }

/-- `result.type !== null` gate in the worker of `processDomains`: the
result is pushed to `results` and handed to `onResult` only when its
type is not null (i.e. not active). -/
def emitResult (r : ScanResult) : List ScanResult :=
  match r with
  | .active => []
  | r => [r]

/-- Status of one worker of `processDomains`: waiting to pop the queue,
running `checkDomain` on a task (with `navInFlight` true exactly while a
`page.goto` navigation is outstanding inside `tryUrl`), or finished. -/
inductive WorkerStatus where
  | idle
  | busy (task : DomainObj) (navInFlight : Bool)
  | done
deriving DecidableEq

/-- Scheduler state of `processDomains`: the shared queue, the fixed
array of workers, the tasks completed so far in completion order, and
the `results` array (which is also, in order, the sequence of `onResult`
deliveries — the source pushes and invokes the callback together). -/
structure SchedState where
  queue : List DomainObj
  workers : List WorkerStatus
  processedTasks : List DomainObj
  results : List ScanResult
deriving DecidableEq

/-- Interleaved execution of `processDomains`: any worker may pop the
queue (`queue.shift()` takes the head), observe the queue empty and
stop, start or finish one navigation inside its current scan, or finish
its scan — appending the task's `checkDomain` outcome to `results` when
its type is not null.  A worker is one position of the `workers` list;
a step rewrites that position in place. -/
inductive ProcStep (net : String → NavOutcome) (ignoreSimilar httpsOnly : Bool) :
    SchedState → SchedState → Prop
  | pop (l r : List WorkerStatus) (t : DomainObj) (rest : List DomainObj)
      (pr : List DomainObj) (res : List ScanResult) :
      ProcStep net ignoreSimilar httpsOnly
        ⟨t :: rest, l ++ .idle :: r, pr, res⟩
        ⟨rest, l ++ .busy t false :: r, pr, res⟩
  | halt (l r : List WorkerStatus) (pr : List DomainObj) (res : List ScanResult) :
      ProcStep net ignoreSimilar httpsOnly
        ⟨[], l ++ .idle :: r, pr, res⟩
        ⟨[], l ++ .done :: r, pr, res⟩
  | navStart (q : List DomainObj) (l r : List WorkerStatus) (t : DomainObj)
      (pr : List DomainObj) (res : List ScanResult) :
      ProcStep net ignoreSimilar httpsOnly
        ⟨q, l ++ .busy t false :: r, pr, res⟩
        ⟨q, l ++ .busy t true :: r, pr, res⟩
  | navEnd (q : List DomainObj) (l r : List WorkerStatus) (t : DomainObj)
      (pr : List DomainObj) (res : List ScanResult) :
      ProcStep net ignoreSimilar httpsOnly
        ⟨q, l ++ .busy t true :: r, pr, res⟩
        ⟨q, l ++ .busy t false :: r, pr, res⟩
  | finish (q : List DomainObj) (l r : List WorkerStatus) (t : DomainObj)
      (pr : List DomainObj) (res : List ScanResult) :
      ProcStep net ignoreSimilar httpsOnly
        ⟨q, l ++ .busy t false :: r, pr, res⟩
        ⟨q, l ++ .idle :: r, pr ++ [t],
         res ++ emitResult (checkDomain net t ignoreSimilar httpsOnly)⟩

/-- Reachability in the scheduler transition system. -/
def ProcReach (net : String → NavOutcome) (ignoreSimilar httpsOnly : Bool) :
    SchedState → SchedState → Prop :=
  Relation.ReflTransGen (ProcStep net ignoreSimilar httpsOnly)

/-- Initial state of `processDomains`: the full task list queued and
`concurrency` idle workers spawned. -/
def initState (tasks : List DomainObj) (concurrency : Nat) : SchedState :=
  ⟨tasks, List.replicate concurrency .idle, [], []⟩

/-- Number of navigations currently in flight. -/
def inflight (s : SchedState) : Nat :=
  s.workers.countP (fun w => match w with | .busy _ true => true | _ => false)

/-- Number of workers currently scanning task `t`. -/
def busyCount (s : SchedState) (t : DomainObj) : Nat :=
  s.workers.countP (fun w => match w with | .busy u _ => decide (u = t) | _ => false)

/-- A finished run: queue drained and every worker done. -/
def Terminal (s : SchedState) : Prop :=
  s.queue = [] ∧ ∀ w ∈ s.workers, w = .done

/-- The results a list of completed tasks contributes, in completion
order. -/
def resultsOf (net : String → NavOutcome) (ignoreSimilar httpsOnly : Bool)
    (tasks : List DomainObj) : List ScanResult :=
  tasks.flatMap (fun t => emitResult (checkDomain net t ignoreSimilar httpsOnly))

lemma ProcStep.workers_length_eq {net : String → NavOutcome}
    {ignoreSimilar httpsOnly : Bool} {s s' : SchedState}
    (h : ProcStep net ignoreSimilar httpsOnly s s') :
    s'.workers.length = s.workers.length := by
  cases h <;> simp

lemma ProcReach.workers_length_fixed {net : String → NavOutcome}
    {ignoreSimilar httpsOnly : Bool} {s s' : SchedState}
    (h : ProcReach net ignoreSimilar httpsOnly s s') :
    s'.workers.length = s.workers.length := by
  induction h with
  | refl => rfl
  | tail _ hstep ih => rw [hstep.workers_length_eq, ih]

lemma startsWith_https_not_http (u : String)
    (h : startsWithS u "https://" = true) : startsWithS u "http://" = false := by
  by_contra hne
  rw [Bool.not_eq_false] at hne
  simp only [startsWithS, List.isPrefixOf_iff_prefix] at h hne
  rcases List.prefix_or_prefix_of_prefix h hne with h1 | h1
  · exact absurd h1 (by decide)
  · exact absurd h1 (by decide)

lemma mem_filterHttps {u : String} {l : List String}
    (hu : u ∈ filterHttps true l) : startsWithS u "https://" = true := by
  simp only [filterHttps, if_pos, List.mem_filter] at hu
  exact hu.2

/-- C8: at every instant of a `processDomains` run, the number of
concurrently in-flight navigations never exceeds the configured
concurrency level, regardless of how many domain tasks are queued: in
every state reachable from the initial state with `c` spawned workers,
`inflight` is at most `c`. -/
theorem inflight_le_concurrency (net : String → NavOutcome)
    (ignoreSimilar httpsOnly : Bool) (tasks : List DomainObj) (c : Nat)
    (s : SchedState) (h : ProcReach net ignoreSimilar httpsOnly (initState tasks c) s) :
    inflight s ≤ c := by
  have hlen : s.workers.length = c := by
    rw [h.workers_length_fixed]; simp [initState]
  exact le_trans (List.countP_le_length _) (le_of_eq hlen)

/-- Witness for C8 at a concrete instance. -/
theorem inflight_le_concurrency_witness :
    inflight (initState ([] : List DomainObj) 2) ≤ 2 :=
  inflight_le_concurrency (fun _ => .ok none "") false false [] 2 _
    Relation.ReflTransGen.refl

/-- C6 (amended): a single probe reports success exactly when a status
code was observed and it is below 400; any status of at least 400, or
the absence of any response, and any thrown navigation error, yield
`success = false`.  (The source accepts any observed status below 400,
including informational codes below 200.) -/
theorem tryUrl_success_iff :
    (∀ (st : Option Int) (f : String),
      ((tryUrl (.ok st f)).success = true ↔ ∃ v, st = some v ∧ v < 400)) ∧
    (∀ m : String, (tryUrl (.err m)).success = false) := by
  constructor
  · intro st f
    cases st with
    | none => simp [tryUrl]
    | some v =>
      constructor
      · intro h
        refine ⟨v, rfl, ?_⟩
        by_contra hge
        have hdead : decide ((v : Int) ≥ 400) = true := decide_eq_true (by omega)
        simp [tryUrl, hdead] at h
      · rintro ⟨w, hw, hlt⟩
        obtain rfl : v = w := by injection hw
        have hdead : decide ((v : Int) ≥ 400) = false := decide_eq_false (by omega)
        simp [tryUrl, hdead]
  · intro m
    rfl

/-- C6 counterexample: at observed status 100 the code reports success,
while the claim's "exactly when the status lies in [200,399]" demands
failure. -/
theorem tryUrl_success_on_status_100 :
    (tryUrl (.ok (some 100) "https://example.com/")).success = true ∧
    ¬ (200 ≤ (100 : Int) ∧ (100 : Int) ≤ 399) := by decide

/-- C7: with the https-only flag set, the candidate sequence returned by
`getSmartVariants` contains no URL using the plain `http://` scheme, for
every input. -/
theorem getSmartVariants_httpsOnly_no_http (dom : String) (ec : Option String)
    (sc : Option Int) (lu u : String)
    (hu : u ∈ getSmartVariants dom ec sc lu true) :
    startsWithS u "http://" = false := by
  simp only [getSmartVariants] at hu
  repeat' split at hu
  all_goals
    first
      | exact absurd hu (by simp)
      | exact startsWith_https_not_http u (mem_filterHttps hu)

/-- Witness for C7 at a concrete input. -/
theorem getSmartVariants_httpsOnly_no_http_witness :
    startsWithS "https://www.example.com" "http://" = false :=
  getSmartVariants_httpsOnly_no_http "example.com"
    (some "ERR_CONNECTION_TIMED_OUT") none "https://example.com"
    "https://www.example.com" (by decide)

/-- C10 (amended): `getSmartVariants` consults only the most recent URL
tried: after the failure sequence `https://example.com`,
`https://www.example.com`, `http://example.com`, each failing with an
unclassified error, the first candidate it returns is
`https://www.example.com`, a URL already attempted earlier in that
sequence.  (Under the configured `MAX_VARIANT_ATTEMPTS = 1` budget a
scan stops after its first attempt, so the repeated candidate is never
actually probed; see the counterexample.) -/
theorem getSmartVariants_repeats_candidate :
    getSmartVariants "example.com" none none "https://example.com" false =
      ["https://www.example.com", "http://example.com", "http://www.example.com"] ∧
    getSmartVariants "example.com" none none "https://www.example.com" false =
      ["http://example.com", "http://www.example.com"] ∧
    getSmartVariants "example.com" none none "http://example.com" false =
      ["https://www.example.com", "http://example.com", "http://www.example.com"] ∧
    (getSmartVariants "example.com" none none "http://example.com" false).head? =
      some "https://www.example.com" := by decide

lemma ProcStep.count_preserved {net : String → NavOutcome}
    {ignoreSimilar httpsOnly : Bool} {s s' : SchedState}
    (h : ProcStep net ignoreSimilar httpsOnly s s') (u : DomainObj) :
    s'.queue.count u + busyCount s' u + s'.processedTasks.count u =
    s.queue.count u + busyCount s u + s.processedTasks.count u := by
  cases h with
  | pop l r t rest pr res =>
    simp only [busyCount, List.countP_append, List.countP_cons, List.count_cons]
    by_cases ht : t = u
    · subst ht; simp; omega
    · simp [ht, Ne.symm ht]
  | halt l r pr res =>
    simp [busyCount, List.countP_append, List.countP_cons]
  | navStart q l r t pr res =>
    simp [busyCount, List.countP_append, List.countP_cons]
  | navEnd q l r t pr res =>
    simp [busyCount, List.countP_append, List.countP_cons]
  | finish q l r t pr res =>
    simp only [busyCount, List.countP_append, List.countP_cons, List.count_append,
      List.count_cons, List.count_nil]
    by_cases ht : t = u
    · subst ht; simp; omega
    · simp [ht, Ne.symm ht]

lemma ProcStep.results_eq {net : String → NavOutcome}
    {ignoreSimilar httpsOnly : Bool} {s s' : SchedState}
    (h : ProcStep net ignoreSimilar httpsOnly s s')
    (hres : s.results = resultsOf net ignoreSimilar httpsOnly s.processedTasks) :
    s'.results = resultsOf net ignoreSimilar httpsOnly s'.processedTasks := by
  cases h <;> simp_all [resultsOf]

lemma ProcReach.invariant {net : String → NavOutcome}
    {ignoreSimilar httpsOnly : Bool} {tasks : List DomainObj} {c : Nat}
    {s : SchedState}
    (h : ProcReach net ignoreSimilar httpsOnly (initState tasks c) s) :
    (∀ u, s.queue.count u + busyCount s u + s.processedTasks.count u =
      tasks.count u) ∧
    s.results = resultsOf net ignoreSimilar httpsOnly s.processedTasks := by
  induction h with
  | refl =>
    constructor
    · intro u
      simp [initState, busyCount, List.countP_replicate]
    · simp [initState, resultsOf]
  | tail _ hstep ih =>
    constructor
    · intro u
      rw [hstep.count_preserved u]
      exact ih.1 u
    · exact hstep.results_eq ih.2

/-- C1 (amended): in every finished `processDomains` run (queue drained,
all workers done), every task of the input list has been scanned exactly
once — `processedTasks` holds each input task exactly as often as the
input does — and the `results` list (which is also the sequence of
`onResult` deliveries) consists of exactly the `checkDomain` outcomes of
the processed tasks whose type is not null, one per task, in completion
order.  Tasks whose outcome is Active (`type: null`) are scanned exactly
once but contribute no entry to `results` and no `onResult` call; the
claim's "every task appears exactly once in the returned results list"
holds only for the non-Active outcomes. -/
theorem processDomains_exactly_once (net : String → NavOutcome)
    (ignoreSimilar httpsOnly : Bool) (tasks : List DomainObj) (c : Nat)
    (s : SchedState)
    (h : ProcReach net ignoreSimilar httpsOnly (initState tasks c) s)
    (hq : s.queue = []) (hw : ∀ w ∈ s.workers, w = .done) :
    (∀ u, s.processedTasks.count u = tasks.count u) ∧
    s.results = resultsOf net ignoreSimilar httpsOnly s.processedTasks := by
  obtain ⟨hcount, hres⟩ := h.invariant
  refine ⟨fun u => ?_, hres⟩
  have h0 : busyCount s u = 0 := by
    apply List.countP_eq_zero.mpr
    intro w hwmem
    rw [hw w hwmem]
    simp
  have hu := hcount u
  rw [hq] at hu
  simpa [h0] using hu

lemma singleTask_run (net : String → NavOutcome) (ignoreSimilar httpsOnly : Bool)
    (t : DomainObj) :
    ProcReach net ignoreSimilar httpsOnly (initState [t] 1)
      ⟨[], [.done], [t], emitResult (checkDomain net t ignoreSimilar httpsOnly)⟩ := by
  refine Relation.ReflTransGen.head (ProcStep.pop [] [] t [] [] []) ?_
  refine Relation.ReflTransGen.head (ProcStep.navStart [] [] [] t [] []) ?_
  refine Relation.ReflTransGen.head (ProcStep.navEnd [] [] [] t [] []) ?_
  refine Relation.ReflTransGen.head (ProcStep.finish [] [] [] t [] []) ?_
  exact Relation.ReflTransGen.head
    (ProcStep.halt [] [] ([] ++ [t])
      ([] ++ emitResult (checkDomain net t ignoreSimilar httpsOnly)))
    Relation.ReflTransGen.refl

/-- Witness for C1: a one-task, one-worker run on a dead domain reaches
the terminal state in which the task was processed exactly once and its
Dead outcome appears exactly once in `results`. -/
theorem processDomains_exactly_once_witness :
    (⟨[], [.done], [⟨"dead.com", ["dead.com"]⟩],
      [.dead "dead.com" none "net::ERR_CONNECTION_REFUSED at https://dead.com"]⟩ :
      SchedState).processedTasks.count ⟨"dead.com", ["dead.com"]⟩ =
      ([⟨"dead.com", ["dead.com"]⟩] : List DomainObj).count
        ⟨"dead.com", ["dead.com"]⟩ ∧
    (⟨[], [.done], [⟨"dead.com", ["dead.com"]⟩],
      [.dead "dead.com" none "net::ERR_CONNECTION_REFUSED at https://dead.com"]⟩ :
      SchedState).results =
      resultsOf (fun _ => .err "net::ERR_CONNECTION_REFUSED at https://dead.com")
        false false [⟨"dead.com", ["dead.com"]⟩] := by
  have hemit : emitResult (checkDomain
      (fun _ => .err "net::ERR_CONNECTION_REFUSED at https://dead.com")
      ⟨"dead.com", ["dead.com"]⟩ false false) =
      [.dead "dead.com" none "net::ERR_CONNECTION_REFUSED at https://dead.com"] := by
    decide
  have hreach := singleTask_run
    (fun _ => .err "net::ERR_CONNECTION_REFUSED at https://dead.com") false false
    ⟨"dead.com", ["dead.com"]⟩
  rw [hemit] at hreach
  have h := processDomains_exactly_once
    (fun _ => .err "net::ERR_CONNECTION_REFUSED at https://dead.com") false false
    [⟨"dead.com", ["dead.com"]⟩] 1 _ hreach rfl
    (by intro w hw; simpa using hw)
  exact ⟨h.1 _, h.2⟩

/-- C1 counterexample: a one-task, one-worker run on a domain whose
probe succeeds without redirect (outcome Active) reaches a terminal
state whose `results` list is empty: the Active task was processed but
appears zero times in the returned results and receives zero `onResult`
calls, not exactly once as the claim states. -/
theorem processDomains_drops_active_outcome :
    ProcReach (fun _ => .ok (some 200) "https://alive.com/") false false
      (initState [⟨"alive.com", ["alive.com"]⟩] 1)
      ⟨[], [.done], [⟨"alive.com", ["alive.com"]⟩], []⟩ ∧
    (⟨[], [.done], [⟨"alive.com", ["alive.com"]⟩], []⟩ : SchedState).results =
      [] := by
  have hemit : emitResult (checkDomain
      (fun _ => .ok (some 200) "https://alive.com/")
      ⟨"alive.com", ["alive.com"]⟩ false false) = [] := by decide
  have hreach := singleTask_run (fun _ => .ok (some 200) "https://alive.com/")
    false false ⟨"alive.com", ["alive.com"]⟩
  rw [hemit] at hreach
  exact ⟨hreach, rfl⟩

/-- The attempt-log entry recorded for a failed probe of `url`. -/
def mkFailAttempt (url : String) (r : TryResult) : Attempt :=
  { url := url, tried := true, success := r.success, statusCode := r.statusCode
    reason := r.reason, errorCode := r.errorCode
    redirect := none, similarRedirect := none }

lemma checkDomainScan_of_fail (net : String → NavOutcome) (d : DomainObj)
    (is ho : Bool)
    (h : (tryUrl (net ("https://" ++ d.original))).success = false) :
    checkDomainScan net d is ho =
      ([mkFailAttempt ("https://" ++ d.original)
          (tryUrl (net ("https://" ++ d.original)))], none) := by
  show checkDomainLoop net d.original is ho (Nat.succ 0)
      ("https://" ++ d.original) [] (fun _ => 0) = _
  rw [checkDomainLoop]
  simp only [h, Bool.false_eq_true, if_false, mkFailAttempt]
  cases hec : (tryUrl (net ("https://" ++ d.original))).errorCode with
  | none =>
    simp only [hec]
    rw [if_neg (by simp : ¬ (false = true))]
    split
    · simp
    · simp [checkDomainLoop]
  | some code =>
    simp only [hec, eq_self_iff_true, if_true, if_pos rfl, Nat.zero_add,
      MAX_RETRIES_PER_ERROR_TYPE, gt_iff_lt, decide_eq_true_eq]
    rw [if_neg (by omega : ¬ (1 : Nat) < 1)]
    split
    · simp
    · simp [checkDomainLoop]

lemma checkDomain_of_fail (net : String → NavOutcome) (d : DomainObj)
    (is ho : Bool)
    (h : (tryUrl (net ("https://" ++ d.original))).success = false) :
    checkDomain net d is ho =
      (let a := mkFailAttempt ("https://" ++ d.original)
        (tryUrl (net ("https://" ++ d.original)))
       if a.errorCode = some "ERR_BLOCKED_BY_CLIENT" then
         .inconclusive d.original (jsOrInt a.statusCode)
           "Blocked by browser/extension/ISP"
       else
         .dead d.original (jsOrInt a.statusCode)
           (jsOrString a.reason "All variants failed")) := by
  have hscan := checkDomainScan_of_fail net d is ho h
  simp only [checkDomain, hscan, List.find?, mkFailAttempt, List.any_cons,
    List.any_nil, Bool.or_false, List.head?, Option.orElse, Option.bind]
  split
  · rename_i hb
    rw [if_pos (by simpa using hb)]
  · rename_i hb
    rw [if_neg (by simpa using hb)]

/-- C2 (amended): a scan that ends with no successful attempt always
yields Dead or Inconclusive; its attempt log has exactly one entry (the
attempt budget is `MAX_VARIANT_ATTEMPTS = 1`), so that entry is the last
one.  A Dead outcome takes its status code and reason from that entry
(with the JS-falsy fallbacks `null` for status 0 and the string `All
variants failed` for an empty reason); an Inconclusive outcome takes its
status code from that entry but its reason is the fixed string `Blocked
by browser/extension/ISP`, not a string taken from the attempt log. -/
theorem exhausted_outcome_fields (net : String → NavOutcome) (d : DomainObj)
    (is ho : Bool)
    (hfail : (tryUrl (net ("https://" ++ d.original))).success = false) :
    ∃ a : Attempt,
      (checkDomainScan net d is ho).1 = [a] ∧
      a.url = "https://" ++ d.original ∧
      a.statusCode = (tryUrl (net ("https://" ++ d.original))).statusCode ∧
      a.reason = (tryUrl (net ("https://" ++ d.original))).reason ∧
      checkDomain net d is ho =
        (if a.errorCode = some "ERR_BLOCKED_BY_CLIENT" then
          .inconclusive d.original (jsOrInt a.statusCode)
            "Blocked by browser/extension/ISP"
        else
          .dead d.original (jsOrInt a.statusCode)
            (jsOrString a.reason "All variants failed")) := by
  refine ⟨mkFailAttempt ("https://" ++ d.original)
    (tryUrl (net ("https://" ++ d.original))), ?_, rfl, rfl, rfl, ?_⟩
  · rw [checkDomainScan_of_fail net d is ho hfail]
  · exact checkDomain_of_fail net d is ho hfail

/-- Witness for C2 at a concrete connection-refused scan. -/
theorem exhausted_outcome_fields_witness :
    ∃ a : Attempt,
      (checkDomainScan
        (fun _ => .err "net::ERR_CONNECTION_REFUSED at https://gone.com")
        ⟨"gone.com", ["gone.com"]⟩ false false).1 = [a] ∧
      a.url = "https://" ++ "gone.com" ∧
      a.statusCode = (tryUrl (NavOutcome.err
        "net::ERR_CONNECTION_REFUSED at https://gone.com")).statusCode ∧
      a.reason = (tryUrl (NavOutcome.err
        "net::ERR_CONNECTION_REFUSED at https://gone.com")).reason ∧
      checkDomain (fun _ => .err "net::ERR_CONNECTION_REFUSED at https://gone.com")
        ⟨"gone.com", ["gone.com"]⟩ false false =
        (if a.errorCode = some "ERR_BLOCKED_BY_CLIENT" then
          .inconclusive "gone.com" (jsOrInt a.statusCode)
            "Blocked by browser/extension/ISP"
        else
          .dead "gone.com" (jsOrInt a.statusCode)
            (jsOrString a.reason "All variants failed")) :=
  exhausted_outcome_fields
    (fun _ => .err "net::ERR_CONNECTION_REFUSED at https://gone.com")
    ⟨"gone.com", ["gone.com"]⟩ false false (by decide)

/-- C2 counterexample: when every attempt is blocked by the client, the
outcome is Inconclusive and its reason is the fixed string `Blocked by
browser/extension/ISP`, which differs from the reason string recorded in
the last (and only) attempt-log entry. -/
theorem inconclusive_reason_not_from_attempt :
    checkDomain (fun _ => .err "net::ERR_BLOCKED_BY_CLIENT at https://blocked.com")
      ⟨"blocked.com", ["blocked.com"]⟩ false false =
      .inconclusive "blocked.com" none "Blocked by browser/extension/ISP" ∧
    ((checkDomainScan
        (fun _ => .err "net::ERR_BLOCKED_BY_CLIENT at https://blocked.com")
        ⟨"blocked.com", ["blocked.com"]⟩ false false).1.map Attempt.reason) =
      [some "net::ERR_BLOCKED_BY_CLIENT at https://blocked.com"] ∧
    ("Blocked by browser/extension/ISP" : String) ≠
      "net::ERR_BLOCKED_BY_CLIENT at https://blocked.com" := by decide

/-- C3 (amended): when navigating `https://<domain>` fails with a
DNS-resolution error, the scan produces outcome Dead whose reason
carries the (truncated) DNS error message — but the attempt log has
length exactly 1, not 2: the `https://www.<domain>` variant is computed
by `getSmartVariants` yet never probed, because
`MAX_VARIANT_ATTEMPTS = 1` exhausts the budget after the first
attempt. -/
theorem dns_failure_dead_single_attempt (net : String → NavOutcome)
    (d : DomainObj) (is ho : Bool) (m : String)
    (hnav : net ("https://" ++ d.original) = .err m)
    (hdns : classifyError m = some "ERR_NAME_NOT_RESOLVED") :
    (checkDomainScan net d is ho).1 =
      [{ url := "https://" ++ d.original, tried := true, success := false,
         statusCode := none, reason := some (truncateError m),
         errorCode := some "ERR_NAME_NOT_RESOLVED",
         redirect := none, similarRedirect := none }] ∧
    checkDomain net d is ho =
      .dead d.original none
        (jsOrString (some (truncateError m)) "All variants failed") := by
  have hfail : (tryUrl (net ("https://" ++ d.original))).success = false := by
    rw [hnav]; rfl
  constructor
  · rw [checkDomainScan_of_fail net d is ho hfail]
    simp [mkFailAttempt, hnav, tryUrl, hdns]
  · rw [checkDomain_of_fail net d is ho hfail]
    simp only [mkFailAttempt, hnav, tryUrl, hdns]
    rw [if_neg (by simp)]
    simp [jsOrInt]

/-- Witness for C3 at a concrete DNS-failing domain. -/
theorem dns_failure_dead_single_attempt_witness :
    (checkDomainScan
      (fun _ => .err "net::ERR_NAME_NOT_RESOLVED at https://example.com")
      ⟨"example.com", ["example.com", "www.example.com"]⟩ false false).1 =
      [{ url := "https://" ++ "example.com", tried := true, success := false,
         statusCode := none,
         reason := some (truncateError "net::ERR_NAME_NOT_RESOLVED at https://example.com"),
         errorCode := some "ERR_NAME_NOT_RESOLVED",
         redirect := none, similarRedirect := none }] ∧
    checkDomain (fun _ => .err "net::ERR_NAME_NOT_RESOLVED at https://example.com")
      ⟨"example.com", ["example.com", "www.example.com"]⟩ false false =
      .dead "example.com" none
        (jsOrString (some (truncateError
          "net::ERR_NAME_NOT_RESOLVED at https://example.com"))
          "All variants failed") :=
  dns_failure_dead_single_attempt
    (fun _ => .err "net::ERR_NAME_NOT_RESOLVED at https://example.com")
    ⟨"example.com", ["example.com", "www.example.com"]⟩ false false
    "net::ERR_NAME_NOT_RESOLVED at https://example.com" rfl (by decide)

/-- C3 counterexample: with every navigation failing by DNS resolution,
the scan of `example.com` has an attempt log of length 1 — not 2 as the
claim requires — even though the outcome is Dead with the DNS reason. -/
theorem dns_scan_attempt_log_length_one :
    (checkDomainScan
      (fun _ => .err "net::ERR_NAME_NOT_RESOLVED at https://example.com")
      ⟨"example.com", ["example.com", "www.example.com"]⟩ false false).1.length = 1 ∧
    ¬ ((checkDomainScan
      (fun _ => .err "net::ERR_NAME_NOT_RESOLVED at https://example.com")
      ⟨"example.com", ["example.com", "www.example.com"]⟩ false false).1.length = 2) ∧
    checkDomain
      (fun _ => .err "net::ERR_NAME_NOT_RESOLVED at https://example.com")
      ⟨"example.com", ["example.com", "www.example.com"]⟩ false false =
      .dead "example.com" none
        "net::ERR_NAME_NOT_RESOLVED at https://example.com" := by decide

/-- C4: blocked-by-client is never retried and never yields Dead:
`getSmartVariants` returns the empty candidate list whenever the last
error code is `ERR_BLOCKED_BY_CLIENT`, and any scan with no successful
attempt in which some attempt recorded that error code is classified
Inconclusive (with the fixed blocked reason), never Dead. -/
theorem blocked_never_retried_never_dead :
    (∀ (dom : String) (sc : Option Int) (lu : String) (ho : Bool),
      getSmartVariants dom (some "ERR_BLOCKED_BY_CLIENT") sc lu ho = []) ∧
    (∀ (net : String → NavOutcome) (d : DomainObj) (is ho : Bool),
      (checkDomainScan net d is ho).2 = none →
      (checkDomainScan net d is ho).1.any
        (fun a => a.errorCode = some "ERR_BLOCKED_BY_CLIENT") = true →
      (∃ sc, checkDomain net d is ho =
        .inconclusive d.original sc "Blocked by browser/extension/ISP") ∧
      ∀ d' sc' r', checkDomain net d is ho ≠ .dead d' sc' r') := by
  constructor
  · intro dom sc lu ho
    simp [getSmartVariants]
  · intro net d is ho h2 hb
    have heq' : checkDomain net d is ho =
        .inconclusive d.original
          (jsOrInt ((((checkDomainScan net d is ho).1.find? fun a => a.tried).orElse
            fun _ => (checkDomainScan net d is ho).1.head?).bind Attempt.statusCode))
          "Blocked by browser/extension/ISP" := by
      simp only [checkDomain, h2, hb, if_true]
    refine ⟨⟨_, heq'⟩, ?_⟩
    intro d' sc' r' hc
    rw [heq'] at hc
    cases hc

/-- Witness for C4 at a concrete blocked domain. -/
theorem blocked_never_retried_never_dead_witness :
    getSmartVariants "blocked.com" (some "ERR_BLOCKED_BY_CLIENT") none
      "https://blocked.com" false = [] ∧
    ((∃ sc, checkDomain
        (fun _ => .err "net::ERR_BLOCKED_BY_CLIENT at https://blocked.com")
        ⟨"blocked.com", ["blocked.com"]⟩ false false =
        .inconclusive "blocked.com" sc "Blocked by browser/extension/ISP") ∧
      ∀ d' sc' r', checkDomain
        (fun _ => .err "net::ERR_BLOCKED_BY_CLIENT at https://blocked.com")
        ⟨"blocked.com", ["blocked.com"]⟩ false false ≠ .dead d' sc' r') :=
  ⟨blocked_never_retried_never_dead.1 "blocked.com" none "https://blocked.com" false,
   blocked_never_retried_never_dead.2
     (fun _ => .err "net::ERR_BLOCKED_BY_CLIENT at https://blocked.com")
     ⟨"blocked.com", ["blocked.com"]⟩ false false (by decide) (by decide)⟩

/-- C5 (amended): when the single probe of `https://<domain>` succeeds,
the outcome is Redirect exactly when the final navigated domain and the
requested domain still differ after each is reduced by `extractDomain`
(hostname with a leading `www.` stripped) and the similar-redirect
policy does not apply; it is Active otherwise.  The similar-redirect
policy applies when the ignore-similar flag is set and both domains
share the same base domain per `getBaseDomain` (strip `www.`, keep the
last two labels of a host with more than two labels).  The claim's
comparison of the raw domains is corrected to this `www.`-insensitive
comparison. -/
theorem checkDomain_success_redirect_rule (net : String → NavOutcome)
    (d : DomainObj) (is ho : Bool) (st : Option Int) (f : String)
    (hnav : net ("https://" ++ d.original) = .ok st f)
    (hsucc : (tryUrl (.ok st f)).success = true) :
    checkDomain net d is ho =
      (if extractDomain ("https://" ++ d.original) ≠ extractDomain f ∧
          isSimilarDomainRedirect (extractDomain ("https://" ++ d.original))
            (extractDomain f) is = false then
        .redirect d.original (extractDomain f) ("https://" ++ d.original)
          (some f) st
      else .active) := by
  have h1 : (MAX_VARIANT_ATTEMPTS : Nat) = Nat.succ 0 := rfl
  have hfu : (tryUrl (.ok st f)).finalUrl = some f := rfl
  have hst : (tryUrl (.ok st f)).statusCode = st := rfl
  by_cases hne : extractDomain ("https://" ++ d.original) = extractDomain f
  · rw [if_neg (by simp [hne])]
    simp only [checkDomain, checkDomainScan, h1, checkDomainLoop, hnav, hsucc,
      if_true, hfu, hst, Option.getD_some]
    rw [if_neg (by simp [hne])]
    simp
  · by_cases hsim : isSimilarDomainRedirect (extractDomain ("https://" ++ d.original))
        (extractDomain f) is = true
    · rw [if_neg (by simp [hsim])]
      simp only [checkDomain, checkDomainScan, h1, checkDomainLoop, hnav, hsucc,
        if_true, hfu, hst, Option.getD_some]
      rw [if_pos hne]
      simp [hsim]
    · rw [if_pos ⟨hne, by simpa using hsim⟩]
      simp only [checkDomain, checkDomainScan, h1, checkDomainLoop, hnav, hsucc,
        if_true, hfu, hst, Option.getD_some]
      rw [if_pos hne]
      simp [hsim]

/-- Witness for C5: `old.com` answering 301 with final URL
`https://new.com/` and the ignore-similar flag off is classified
Redirect to `new.com`. -/
theorem checkDomain_success_redirect_rule_witness :
    checkDomain (fun _ => .ok (some 301) "https://new.com/")
      ⟨"old.com", ["old.com"]⟩ false false =
      .redirect "old.com" "new.com" "https://old.com"
        (some "https://new.com/") (some 301) :=
  (checkDomain_success_redirect_rule (fun _ => .ok (some 301) "https://new.com/")
    ⟨"old.com", ["old.com"]⟩ false false (some 301) "https://new.com/"
    rfl (by decide)).trans (by decide)

/-- C5 counterexample: requested domain `example.com`, successful final
URL `https://www.example.com/`, ignore-similar flag off.  The final
navigated domain `www.example.com` differs from the requested domain,
so the claim demands Redirect, but the code strips `www.` before
comparing and classifies the outcome Active. -/
theorem www_redirect_classified_active :
    checkDomain (fun _ => .ok (some 200) "https://www.example.com/")
      ⟨"example.com", ["example.com"]⟩ false false = .active ∧
    ("www.example.com" : String) ≠ "example.com" := by decide

/-- C9: if resetting a pooled page during `acquire` fails, the popped
page is removed from the in-use set without being closed (and is in no
pool collection any more), the freshly created replacement page is
returned without being registered as pool-owned, and a subsequent
`release` of that replacement closes it instead of returning it to the
available set — so each reset failure shrinks the pool's set of
reusable handles by one. -/
theorem pagePool_reset_failure_shrinks_pool (s : PoolState)
    (avail₀ : List Nat) (q : Nat)
    (havail : s.available = avail₀ ++ [q])
    (hq1 : q ∉ avail₀) (hq2 : q ∉ s.inUse) (hq3 : q ∉ s.closedPages)
    (hfresh : ∀ x ∈ s.inUse, x < s.nextId) (hqid : q < s.nextId) :
    (poolAcquire true s).1 = s.nextId ∧
    (poolAcquire true s).2.inUse = s.inUse ∧
    q ∉ (poolAcquire true s).2.inUse ∧
    q ∉ (poolAcquire true s).2.available ∧
    (poolAcquire true s).2.closedPages = s.closedPages ∧
    (poolAcquire true s).1 ∉ (poolAcquire true s).2.inUse ∧
    poolRelease (poolAcquire true s).1 (poolAcquire true s).2 =
      { nextId := s.nextId + 1, available := avail₀, inUse := s.inUse,
        closedPages := s.closedPages ++ [s.nextId] } ∧
    q ∉ (poolRelease (poolAcquire true s).1 (poolAcquire true s).2).closedPages ∧
    (poolRelease (poolAcquire true s).1 (poolAcquire true s).2).available.length
      + 1 = s.available.length := by
  have hga : s.available.getLast? = some q := by
    rw [havail]; exact List.getLast?_concat _
  have hdl : s.available.dropLast = avail₀ := by
    rw [havail]; exact List.dropLast_concat
  have hin : (s.inUse ++ [q]).erase q = s.inUse := by
    rw [List.erase_append_right _ hq2]
    simp
  have hacq : poolAcquire true s =
      (s.nextId, ⟨s.nextId + 1, avail₀, s.inUse, s.closedPages⟩) := by
    simp only [poolAcquire, hga, hdl, if_true]
    rw [if_neg hq2, hin]
  have hpnotin : s.nextId ∉ s.inUse := fun hmem =>
    absurd (hfresh _ hmem) (lt_irrefl _)
  have hrel : poolRelease s.nextId ⟨s.nextId + 1, avail₀, s.inUse, s.closedPages⟩ =
      ⟨s.nextId + 1, avail₀, s.inUse, s.closedPages ++ [s.nextId]⟩ := by
    simp only [poolRelease]
    rw [if_neg hpnotin]
  rw [hacq]
  refine ⟨rfl, rfl, hq2, hq1, rfl, hpnotin, hrel, ?_, ?_⟩
  · rw [hrel]
    simp only [List.mem_append, List.mem_singleton]
    rintro (hc | hc)
    · exact hq3 hc
    · omega
  · rw [hrel, havail]
    simp

/-- Witness for C9 at a one-page pool whose reset fails. -/
theorem pagePool_reset_failure_shrinks_pool_witness :
    (poolAcquire true ⟨1, [0], [], []⟩).1 = 1 ∧
    (poolAcquire true ⟨1, [0], [], []⟩).2.inUse = [] ∧
    (0 : Nat) ∉ (poolAcquire true ⟨1, [0], [], []⟩).2.inUse ∧
    (0 : Nat) ∉ (poolAcquire true ⟨1, [0], [], []⟩).2.available ∧
    (poolAcquire true ⟨1, [0], [], []⟩).2.closedPages = [] ∧
    (poolAcquire true ⟨1, [0], [], []⟩).1 ∉
      (poolAcquire true ⟨1, [0], [], []⟩).2.inUse ∧
    poolRelease (poolAcquire true ⟨1, [0], [], []⟩).1
      (poolAcquire true ⟨1, [0], [], []⟩).2 =
      { nextId := 2, available := [], inUse := [], closedPages := [] ++ [1] } ∧
    (0 : Nat) ∉ (poolRelease (poolAcquire true ⟨1, [0], [], []⟩).1
      (poolAcquire true ⟨1, [0], [], []⟩).2).closedPages ∧
    (poolRelease (poolAcquire true ⟨1, [0], [], []⟩).1
      (poolAcquire true ⟨1, [0], [], []⟩).2).available.length + 1 =
      ([0] : List Nat).length :=
  pagePool_reset_failure_shrinks_pool ⟨1, [0], [], []⟩ [] 0 rfl
    (by decide) (by decide) (by decide) (by intro x hx; cases hx) (by decide)

/-- C10 counterexample: under the configured attempt budget
(`MAX_VARIANT_ATTEMPTS = 1`) a scan in which every navigation fails with
an unclassified error performs exactly one attempt, so the claimed
three-failure sequence never occurs inside one scan and no URL is ever
re-probed. -/
theorem scan_cannot_reprobe_budget_one :
    ((checkDomainScan (fun _ => .err "generic navigation failure")
      ⟨"example.com", ["example.com", "www.example.com"]⟩ false false).1.map
        Attempt.url) = ["https://example.com"] := by decide

